import Mathlib

/-!
Shallow embedding of the workout store of `src/app.py` (andykeeley/fitness-tracker).

Each SQL table of `init_db` becomes a Lean structure plus a list field of a
`Store` record; each Flask handler that mutates the store becomes a pure
function `Store → Store` translated statement-by-statement from its SQL.
Auto-increment primary keys are modelled by per-table counters; `CURRENT_TIMESTAMP`
and the request date are passed in as explicit `now`/`date` parameters.
`REAL` columns (weights, distances) carry `Rat` values: the program stores and
returns them without arithmetic. Python `str.strip()` is modelled by `strip` below.
-/

namespace Fitness

/-- Python's ASCII whitespace characters, the ones `str.strip()` removes
(space, tab, newline, carriage return, vertical tab, form feed). -/
def isSpaceChar (c : Char) : Bool :=
  c == ' ' || c == '\t' || c == '\n' || c == '\r' || c == '\x0b' || c == '\x0c'

/-- Python `str.strip()`: drop whitespace from both ends of the string. -/
def strip (s : String) : String :=
  ⟨((s.data.dropWhile isSpaceChar).reverse.dropWhile isSpaceChar).reverse⟩

/-- Row of table `workouts` (columns in schema order; `SERIAL`/`AUTOINCREMENT` id). -/
structure Workout where
  id : Nat
  workout_type : String
  status : String
  date : String
  notes : Option String
  duration_minutes : Option Int
  distance_km : Option Rat
  template_id : Option Nat
  created_at : Nat
  completed_at : Option Nat
deriving DecidableEq, Repr

/-- Row of table `exercises`. -/
structure Exercise where
  id : Nat
  workout_id : Nat
  name : String
  order_num : Nat
  target_sets : Option Int
  target_reps : Option Int
  target_weight : Option Rat
  created_at : Nat
deriving DecidableEq, Repr

/-- Row of table `sets`. -/
structure SetRow where
  id : Nat
  exercise_id : Nat
  set_number : Nat
  reps : Int
  weight : Rat
  created_at : Nat
deriving DecidableEq, Repr

/-- Row of table `templates`. -/
structure Template where
  id : Nat
  name : String
  workout_type : String
  created_at : Nat
deriving DecidableEq, Repr

/-- Row of table `template_exercises` (this table has no `created_at` column). -/
structure TemplateExercise where
  id : Nat
  template_id : Nat
  name : String
  order_num : Nat
  target_sets : Int
  target_reps : Int
  target_weight : Rat
deriving DecidableEq, Repr

/-- The whole database: one list per table plus the next auto-increment id of each. -/
structure Store where
  workouts : List Workout
  exercises : List Exercise
  sets : List SetRow
  templates : List Template
  template_exercises : List TemplateExercise
  next_workout_id : Nat
  next_exercise_id : Nat
  next_set_id : Nat
  next_template_id : Nat
  next_template_exercise_id : Nat
deriving DecidableEq, Repr

/-- `SELECT MAX(c) FROM …` over the selected column values, with SQL's
`NULL`-on-empty collapsed by the handlers' `(… or 0)` to `0`. -/
def listMax : List Nat → Nat
  | [] => 0
  | x :: xs => Nat.max x (listMax xs)

/-- `SELECT * FROM exercises WHERE workout_id = ?`. -/
def exercisesOf (s : Store) (workout_id : Nat) : List Exercise :=
  s.exercises.filter (fun e => e.workout_id == workout_id)

/-- `SELECT * FROM sets WHERE exercise_id = ?`. -/
def setsOfExercise (s : Store) (exercise_id : Nat) : List SetRow :=
  s.sets.filter (fun t => t.exercise_id == exercise_id)

/-- The sets owned (via an exercise) by a workout: `sets s JOIN exercises e ON
s.exercise_id = e.id WHERE e.workout_id = ?`. -/
def setsOfWorkout (s : Store) (workout_id : Nat) : List SetRow :=
  s.sets.filter (fun t => (exercisesOf s workout_id).any (fun e => e.id == t.exercise_id))

/-- `SELECT * FROM template_exercises WHERE template_id = ?`. -/
def templateExercisesOf (s : Store) (template_id : Nat) : List TemplateExercise :=
  s.template_exercises.filter (fun te => te.template_id == template_id)

/-- Handler `start_workout` (POST /workout/start), app.py:217-243:
`INSERT INTO workouts (workout_type, date, status) VALUES (?, ?, 'in_progress')`;
the remaining columns take their schema defaults. -/
def start_workout (s : Store) (workout_type : String) (date : String) (now : Nat) : Store :=
  { s with
      workouts := s.workouts ++
        [⟨s.next_workout_id, workout_type, "in_progress", date, none, none, none, none, now, none⟩],
      next_workout_id := s.next_workout_id + 1 }

/-- Handler `add_exercise` (POST /workout/id/add_exercise), app.py:288-313:
trims the submitted name, redirects without touching the store when it is empty,
otherwise inserts with `order_num = MAX(order_num of the workout's exercises) + 1`
(`1` when there are none); no check of the workout's status or type. -/
def add_exercise (s : Store) (workout_id : Nat) (raw_name : String) (now : Nat) : Store :=
  let name := strip raw_name
  if name = "" then s
  else
    let next_order := listMax ((exercisesOf s workout_id).map (fun e => e.order_num)) + 1
    { s with
        exercises := s.exercises ++
          [⟨s.next_exercise_id, workout_id, name, next_order, none, none, none, now⟩],
        next_exercise_id := s.next_exercise_id + 1 }

/-- Handler `add_set` (POST /workout/id/exercise/eid/add_set), app.py:315-338:
inserts with `set_number = MAX(set_number of the exercise's sets) + 1` (`1` when
none); the `workout_id` path parameter is used only for the redirect. -/
def add_set (s : Store) (workout_id : Nat) (exercise_id : Nat)
    (reps : Int) (weight : Rat) (now : Nat) : Store :=
  let next_set := listMax ((setsOfExercise s exercise_id).map (fun t => t.set_number)) + 1
  { s with
      sets := s.sets ++ [⟨s.next_set_id, exercise_id, next_set, reps, weight, now⟩],
      next_set_id := s.next_set_id + 1 }

/-- Handler `delete_set` (POST /workout/id/exercise/eid/delete_set/sid),
app.py:340-349: `DELETE FROM sets WHERE id = ?` — the workout and exercise path
parameters are used only for the redirect. -/
def delete_set (s : Store) (workout_id : Nat) (exercise_id : Nat) (set_id : Nat) : Store :=
  { s with sets := s.sets.filter (fun t => !(t.id == set_id)) }

/-- Handler `delete_exercise` (POST /workout/id/delete_exercise/eid),
app.py:351-361: delete the exercise's sets, then the exercise row. -/
def delete_exercise (s : Store) (workout_id : Nat) (exercise_id : Nat) : Store :=
  { s with
      sets := s.sets.filter (fun t => !(t.exercise_id == exercise_id)),
      exercises := s.exercises.filter (fun e => !(e.id == exercise_id)) }

/-- Handler `update_run` (POST /workout/id/update_run), app.py:384-399:
`UPDATE workouts SET duration_minutes = ?, distance_km = ? WHERE id = ?`;
missing or unparsable form fields arrive as NULL (`none`). No type/status check. -/
def update_run (s : Store) (workout_id : Nat)
    (duration : Option Int) (distance : Option Rat) : Store :=
  { s with
      workouts := s.workouts.map (fun w =>
        if w.id == workout_id then
          { w with duration_minutes := duration, distance_km := distance }
        else w) }

/-- Handler `finish_workout` (POST /workout/id/finish), app.py:439-455:
`UPDATE workouts SET status = 'completed', notes = ?, completed_at = CURRENT_TIMESTAMP
WHERE id = ?` — unconditionally, whatever the current status. -/
def finish_workout (s : Store) (workout_id : Nat) (notes : String) (now : Nat) : Store :=
  { s with
      workouts := s.workouts.map (fun w =>
        if w.id == workout_id then
          { w with status := "completed", notes := some notes, completed_at := some now }
        else w) }

/-- Handler `cancel_workout` (POST /workout/id/cancel), app.py:457-472:
deletes the workout's sets (subquery over its exercises) and its exercises
unconditionally, then `DELETE FROM workouts WHERE id = ? AND status = 'in_progress'`. -/
def cancel_workout (s : Store) (workout_id : Nat) : Store :=
  { s with
      sets := s.sets.filter
        (fun t => !((exercisesOf s workout_id).any (fun e => e.id == t.exercise_id))),
      exercises := s.exercises.filter (fun e => !(e.workout_id == workout_id)),
      workouts := s.workouts.filter
        (fun w => !(w.id == workout_id && w.status == "in_progress")) }

/-- Handler `delete_workout` (POST /workout/id/delete), app.py:521-536:
identical to cancel except the final guard: the child deletes are unconditional,
the workout row is deleted only `WHERE id = ? AND status = 'completed'`. -/
def delete_workout (s : Store) (workout_id : Nat) : Store :=
  { s with
      sets := s.sets.filter
        (fun t => !((exercisesOf s workout_id).any (fun e => e.id == t.exercise_id))),
      exercises := s.exercises.filter (fun e => !(e.workout_id == workout_id)),
      workouts := s.workouts.filter
        (fun w => !(w.id == workout_id && w.status == "completed")) }

/-- Handler `new_template` (POST /templates/new), app.py:558-587: trims the name,
no insert when empty, otherwise `INSERT INTO templates (name, workout_type)`. -/
def new_template (s : Store) (raw_name : String) (workout_type : String) (now : Nat) : Store :=
  let name := strip raw_name
  if name = "" then s
  else
    { s with
        templates := s.templates ++ [⟨s.next_template_id, name, workout_type, now⟩],
        next_template_id := s.next_template_id + 1 }

/-- Handler `add_template_exercise` (POST /templates/id/add_exercise),
app.py:635-663: same trimmed-empty-name rejection and `MAX(order_num)+1`
numbering as `add_exercise`, inserting the submitted targets. -/
def add_template_exercise (s : Store) (template_id : Nat) (raw_name : String)
    (target_sets : Int) (target_reps : Int) (target_weight : Rat) : Store :=
  let name := strip raw_name
  if name = "" then s
  else
    let next_order := listMax ((templateExercisesOf s template_id).map (fun te => te.order_num)) + 1
    { s with
        template_exercises := s.template_exercises ++
          [⟨s.next_template_exercise_id, template_id, name, next_order,
            target_sets, target_reps, target_weight⟩],
        next_template_exercise_id := s.next_template_exercise_id + 1 }

/-- Handler `delete_template_exercise` (POST /templates/id/delete_exercise/eid),
app.py:665-674: `DELETE FROM template_exercises WHERE id = ?` — the template path
parameter is used only for the redirect. -/
def delete_template_exercise (s : Store) (template_id : Nat) (exercise_id : Nat) : Store :=
  { s with template_exercises := s.template_exercises.filter (fun te => !(te.id == exercise_id)) }

/-- Handler `delete_template` (POST /templates/id/delete), app.py:676-686:
deletes the template's exercises, then the template row. -/
def delete_template (s : Store) (template_id : Nat) : Store :=
  { s with
      template_exercises := s.template_exercises.filter (fun te => !(te.template_id == template_id)),
      templates := s.templates.filter (fun t => !(t.id == template_id)) }

/-- The loop body of `start_from_template`: one `INSERT INTO exercises … VALUES
(workout_id, te.name, te.order_num, te.target_sets, te.target_reps, te.target_weight)`
per template exercise, ids assigned consecutively by the auto-increment. -/
def copyTemplateExercises (workout_id : Nat) (now : Nat) :
    Nat → List TemplateExercise → List Exercise
  | _, [] => []
  | nid, te :: tes =>
      ⟨nid, workout_id, te.name, te.order_num,
        some te.target_sets, some te.target_reps, some te.target_weight, now⟩
        :: copyTemplateExercises workout_id now (nid + 1) tes

/-- Handler `start_from_template` (POST /workout/start-from-template/id),
app.py:688-733: looks the template up (redirects with no mutation when absent),
inserts a workout with the template's `workout_type` and `template_id = ?`, then
copies every template exercise (read back `ORDER BY order_num`) into `exercises`. -/
def start_from_template (s : Store) (template_id : Nat) (date : String) (now : Nat) : Store :=
  match s.templates.find? (fun t => t.id == template_id) with
  | none => s
  | some t =>
      let workout_id := s.next_workout_id
      let tes := List.insertionSort (fun a b => a.order_num ≤ b.order_num)
        (templateExercisesOf s template_id)
      { s with
          workouts := s.workouts ++
            [⟨workout_id, t.workout_type, "in_progress", date, none, none, none,
              some template_id, now, none⟩],
          exercises := s.exercises ++ copyTemplateExercises workout_id now s.next_exercise_id tes,
          next_workout_id := s.next_workout_id + 1,
          next_exercise_id := s.next_exercise_id + tes.length }

/-- One request against a mutating route, with all parsed inputs. -/
inductive Op
  | startWorkout (workout_type : String) (date : String) (now : Nat)
  | startFromTemplate (template_id : Nat) (date : String) (now : Nat)
  | addExercise (workout_id : Nat) (raw_name : String) (now : Nat)
  | addSet (workout_id : Nat) (exercise_id : Nat) (reps : Int) (weight : Rat) (now : Nat)
  | deleteSet (workout_id : Nat) (exercise_id : Nat) (set_id : Nat)
  | deleteExercise (workout_id : Nat) (exercise_id : Nat)
  | updateRun (workout_id : Nat) (duration : Option Int) (distance : Option Rat)
  | finishWorkout (workout_id : Nat) (notes : String) (now : Nat)
  | cancelWorkout (workout_id : Nat)
  | deleteWorkout (workout_id : Nat)
  | newTemplate (raw_name : String) (workout_type : String) (now : Nat)
  | addTemplateExercise (template_id : Nat) (raw_name : String)
      (target_sets : Int) (target_reps : Int) (target_weight : Rat)
  | deleteTemplateExercise (template_id : Nat) (exercise_id : Nat)
  | deleteTemplate (template_id : Nat)
deriving DecidableEq, Repr

/-- Dispatch an operation to its handler. -/
def Op.apply : Op → Store → Store
  | .startWorkout wt d now, s => start_workout s wt d now
  | .startFromTemplate tid d now, s => start_from_template s tid d now
  | .addExercise wid raw now, s => add_exercise s wid raw now
  | .addSet wid eid r wt now, s => add_set s wid eid r wt now
  | .deleteSet wid eid sid, s => delete_set s wid eid sid
  | .deleteExercise wid eid, s => delete_exercise s wid eid
  | .updateRun wid dur dist, s => update_run s wid dur dist
  | .finishWorkout wid n now, s => finish_workout s wid n now
  | .cancelWorkout wid, s => cancel_workout s wid
  | .deleteWorkout wid, s => delete_workout s wid
  | .newTemplate raw wt now, s => new_template s raw wt now
  | .addTemplateExercise tid raw ts tr tw, s => add_template_exercise s tid raw ts tr tw
  | .deleteTemplateExercise tid eid, s => delete_template_exercise s tid eid
  | .deleteTemplate tid, s => delete_template s tid

/-- The operations of the claim "every mutating operation (UpdateRun, FinishWorkout,
AddExercise, AddSet, the deletes)": everything except the two workout-creating routes. -/
def Op.isMutator : Op → Bool
  | .startWorkout _ _ _ => false
  | .startFromTemplate _ _ _ => false
  | _ => true

/-- Basic well-formedness every state produced by the auto-increment schema has:
ids already handed out are below the table's next id, and foreign keys point
at ids already handed out. -/
structure WF (s : Store) : Prop where
  workout_ids : ∀ w ∈ s.workouts, w.id < s.next_workout_id
  exercise_ids : ∀ e ∈ s.exercises, e.id < s.next_exercise_id
  exercise_wids : ∀ e ∈ s.exercises, e.workout_id < s.next_workout_id
  set_eids : ∀ t ∈ s.sets, t.exercise_id < s.next_exercise_id

/-- The spec's type-separation invariant (§3): a `run` workout owns no exercises
and no sets, and a non-`run` workout has NULL `duration_minutes` and `distance_km`. -/
def TypeInvariant (s : Store) : Prop :=
  ∀ w ∈ s.workouts,
    (w.workout_type = "run" → exercisesOf s w.id = [] ∧ setsOfWorkout s w.id = []) ∧
    (w.workout_type ≠ "run" → w.duration_minutes = none ∧ w.distance_km = none)

/-- The caller-side type discipline the code itself never checks: exercises are only
added to non-run workouts, run data is only written to run workouts, and a run
template carries no template exercises. All other operations are unrestricted. -/
def Op.respectsTypes (op : Op) (s : Store) : Prop :=
  match op with
  | .addExercise wid _ _ => ∀ w ∈ s.workouts, w.id = wid → w.workout_type ≠ "run"
  | .updateRun wid _ _ => ∀ w ∈ s.workouts, w.id = wid → w.workout_type = "run"
  | .startFromTemplate tid _ _ =>
      ∀ t ∈ s.templates, t.id = tid → t.workout_type = "run" → templateExercisesOf s tid = []
  | _ => True

/-- A store holding one in-progress strength workout and nothing else. -/
def strengthStore : Store :=
  ⟨[⟨1, "strength", "in_progress", "2024-01-01", none, none, none, none, 0, none⟩],
   [], [], [], [], 2, 1, 1, 1, 1⟩

/-- A store holding one in-progress strength workout with one exercise ("Squat",
order 1) owning one set (5 reps at weight 100). -/
def inProgressFullStore : Store :=
  ⟨[⟨1, "strength", "in_progress", "2024-01-01", none, none, none, none, 0, none⟩],
   [⟨1, 1, "Squat", 1, none, none, none, 0⟩],
   [⟨1, 1, 1, 5, 100, 0⟩], [], [], 2, 2, 2, 1, 1⟩

/-- Same data but the workout is already completed. -/
def completedFullStore : Store :=
  ⟨[⟨1, "strength", "completed", "2024-01-01", some "good", none, none, none, 0, some 10⟩],
   [⟨1, 1, "Squat", 1, none, none, none, 0⟩],
   [⟨1, 1, 1, 5, 100, 0⟩], [], [], 2, 2, 2, 1, 1⟩

/-- A store holding a run workout (id 1) and a completed strength workout (id 2). -/
def runMixStore : Store :=
  ⟨[⟨1, "run", "in_progress", "2024-01-01", none, none, none, none, 0, none⟩,
    ⟨2, "strength", "completed", "2024-01-01", none, none, none, none, 0, some 1⟩],
   [], [], [], [], 3, 1, 1, 1, 1⟩

/-- A store holding one template "Push Day" with two template exercises. -/
def pushDayStore : Store :=
  ⟨[], [], [],
   [⟨1, "Push Day", "strength", 0⟩],
   [⟨1, 1, "Bench", 1, 3, 8, 135⟩, ⟨2, 1, "OHP", 2, 3, 10, 65⟩],
   1, 1, 1, 2, 3⟩

/-- The C3 counterexample run: add "A" and "B" (order 1 and 2), delete the
order-2 exercise (row id 2), then add "C". -/
def reuseScenario : Store :=
  add_exercise (delete_exercise
    (add_exercise (add_exercise strengthStore 1 "A" 0) 1 "B" 0) 1 2) 1 "C" 0

/-- The columns `StartWorkoutFromTemplate` copies, read off an exercise row. -/
def exTargets (e : Exercise) : String × Nat × Option Int × Option Int × Option Rat :=
  (e.name, e.order_num, e.target_sets, e.target_reps, e.target_weight)

/-- The same columns read off a template-exercise row (targets become non-NULL). -/
def teTargets (te : TemplateExercise) : String × Nat × Option Int × Option Int × Option Rat :=
  (te.name, te.order_num, some te.target_sets, some te.target_reps, some te.target_weight)

/- ------------------------------------------------------------------ -/
/- Helper lemmas                                                       -/
/- ------------------------------------------------------------------ -/

theorem le_listMax {a : Nat} : ∀ {l : List Nat}, a ∈ l → a ≤ listMax l
  | x :: xs, h => by
    rcases List.mem_cons.mp h with h | h
    · subst h; exact Nat.le_max_left _ _
    · exact Nat.le_trans (le_listMax h) (Nat.le_max_right _ _)

theorem filterW_nil_iff (l : List Exercise) (wid : Nat) :
    l.filter (fun e => e.workout_id == wid) = [] ↔ ∀ e ∈ l, e.workout_id ≠ wid := by
  simp [List.filter_eq_nil_iff]

theorem setsOfWorkout_eq_nil {s : Store} {wid : Nat} (h : exercisesOf s wid = []) :
    setsOfWorkout s wid = [] := by
  simp [setsOfWorkout, h]

theorem typeInvariant_of {s : Store}
    (h1 : ∀ w ∈ s.workouts, w.workout_type = "run" → exercisesOf s w.id = [])
    (h2 : ∀ w ∈ s.workouts, w.workout_type ≠ "run" →
        w.duration_minutes = none ∧ w.distance_km = none) :
    TypeInvariant s :=
  fun w hw => ⟨fun hr => ⟨h1 w hw hr, setsOfWorkout_eq_nil (h1 w hw hr)⟩, h2 w hw⟩

theorem tiRunEx {s : Store} {w : Workout} (h : TypeInvariant s) (hw : w ∈ s.workouts)
    (hr : w.workout_type = "run") : exercisesOf s w.id = [] :=
  ((h w hw).1 hr).1

theorem tiNonRun {s : Store} {w : Workout} (h : TypeInvariant s) (hw : w ∈ s.workouts)
    (hn : w.workout_type ≠ "run") : w.duration_minutes = none ∧ w.distance_km = none :=
  (h w hw).2 hn

theorem typeInvariant_sub {s s' : Store}
    (hw : ∀ w ∈ s'.workouts, w ∈ s.workouts)
    (he : ∀ e ∈ s'.exercises, e ∈ s.exercises)
    (hInv : TypeInvariant s) : TypeInvariant s' := by
  refine typeInvariant_of ?_ ?_
  · intro w hww hr
    have h0 := tiRunEx hInv (hw w hww) hr
    show s'.exercises.filter (fun e => e.workout_id == w.id) = []
    exact (filterW_nil_iff _ _).mpr
      (fun e hee => (filterW_nil_iff _ _).mp h0 e (he e hee))
  · intro w hww hn
    exact tiNonRun hInv (hw w hww) hn

theorem copy_map_targets (wid now : Nat) : ∀ (nid : Nat) (tes : List TemplateExercise),
    (copyTemplateExercises wid now nid tes).map exTargets = tes.map teTargets
  | _, [] => rfl
  | nid, te :: tes => by
      simp [copyTemplateExercises, copy_map_targets wid now (nid + 1) tes, exTargets, teTargets]

theorem copy_mem {wid now : Nat} : ∀ {nid : Nat} {tes : List TemplateExercise} {e : Exercise},
    e ∈ copyTemplateExercises wid now nid tes → e.workout_id = wid ∧ nid ≤ e.id
  | nid, te :: tes, e, h => by
    rcases List.mem_cons.mp h with h | h
    · subst h; exact ⟨rfl, Nat.le_refl _⟩
    · have h2 := copy_mem h
      exact ⟨h2.1, Nat.le_trans (Nat.le_succ _) h2.2⟩

theorem add_exercise_workouts (s : Store) (wid : Nat) (raw : String) (now : Nat) :
    (add_exercise s wid raw now).workouts = s.workouts := by
  by_cases h : strip raw = "" <;> simp [add_exercise, h]

theorem new_template_frame (s : Store) (raw wt : String) (now : Nat) :
    (new_template s raw wt now).workouts = s.workouts
    ∧ (new_template s raw wt now).exercises = s.exercises := by
  by_cases h : strip raw = "" <;> simp [new_template, h]

theorem add_template_exercise_frame (s : Store) (tid : Nat) (raw : String)
    (ts tr : Int) (tw : Rat) :
    (add_template_exercise s tid raw ts tr tw).workouts = s.workouts
    ∧ (add_template_exercise s tid raw ts tr tw).exercises = s.exercises := by
  by_cases h : strip raw = "" <;> simp [add_template_exercise, h]

/- ------------------------------------------------------------------ -/
/- Claim theorems                                                      -/
/- ------------------------------------------------------------------ -/

/-- C1: on an in-progress workout with one exercise and one set, `delete_workout`
leaves the workout row in place but deletes the exercise and the set — the store
is NOT unchanged, contradicting the claim's no-op contract. -/
theorem c1_delete_workout_strips_children :
    (delete_workout inProgressFullStore 1).workouts = inProgressFullStore.workouts
    ∧ inProgressFullStore.exercises ≠ [] ∧ inProgressFullStore.sets ≠ []
    ∧ (delete_workout inProgressFullStore 1).exercises = []
    ∧ (delete_workout inProgressFullStore 1).sets = []
    ∧ delete_workout inProgressFullStore 1 ≠ inProgressFullStore := by decide

/-- C2: on a completed workout with one exercise and one set, `cancel_workout`
keeps the workout row but deletes the exercise and the set, so rows ARE affected;
on an absent id it is a true no-op. -/
theorem c2_cancel_workout_strips_children :
    (cancel_workout completedFullStore 1).workouts = completedFullStore.workouts
    ∧ completedFullStore.exercises ≠ []
    ∧ (cancel_workout completedFullStore 1).exercises = []
    ∧ (cancel_workout completedFullStore 1).sets = []
    ∧ cancel_workout completedFullStore 1 ≠ completedFullStore
    ∧ cancel_workout completedFullStore 99 = completedFullStore := by decide

/-- C3 counterexample: add "A" and "B" (order 1, 2), delete the order-2 exercise,
add "C" — the new exercise gets order_num 2, reusing the deleted k = 2. -/
theorem c3_counterexample :
    (exercisesOf reuseScenario 1).map (fun e => (e.name, e.order_num))
      = [("A", 1), ("C", 2)] := by decide

/-- C3 (amended): `add_exercise` appends an exercise numbered
`max(remaining order_num) + 1` (so `1, 2, 3, …` absent deletions), and the new
number differs from any k bounded by a surviving order_num — k can only be
reused when every surviving order_num is below it; same for `add_set`. -/
theorem c3_next_number_is_max_plus_one (s : Store) (wid : Nat) (raw : String) (now : Nat)
    (h : strip raw ≠ "") :
    ((exercisesOf (add_exercise s wid raw now) wid).map (fun e => e.order_num)
        = (exercisesOf s wid).map (fun e => e.order_num)
          ++ [listMax ((exercisesOf s wid).map (fun e => e.order_num)) + 1])
    ∧ (∀ k, (∃ e ∈ exercisesOf s wid, k ≤ e.order_num) →
        listMax ((exercisesOf s wid).map (fun e => e.order_num)) + 1 ≠ k)
    ∧ ∀ (eid : Nat) (r : Int) (wt : Rat),
        ((setsOfExercise (add_set s wid eid r wt now) eid).map (fun t => t.set_number)
            = (setsOfExercise s eid).map (fun t => t.set_number)
              ++ [listMax ((setsOfExercise s eid).map (fun t => t.set_number)) + 1])
        ∧ ∀ k, (∃ t ∈ setsOfExercise s eid, k ≤ t.set_number) →
            listMax ((setsOfExercise s eid).map (fun t => t.set_number)) + 1 ≠ k := by
  refine ⟨?_, ?_, ?_⟩
  · simp [add_exercise, h, exercisesOf, List.filter_append]
  · rintro k ⟨e, he, hk⟩ heq
    have h1 : e.order_num ≤ listMax ((exercisesOf s wid).map (fun e => e.order_num)) :=
      le_listMax (List.mem_map_of_mem _ he)
    omega
  · intro eid r wt
    constructor
    · simp [add_set, setsOfExercise, List.filter_append]
    · rintro k ⟨t, ht, hk⟩ heq
      have h1 : t.set_number ≤ listMax ((setsOfExercise s eid).map (fun t => t.set_number)) :=
        le_listMax (List.mem_map_of_mem _ ht)
      omega

/-- C3 witness: the amended numbering law evaluated on the concrete one-exercise
store, name "Bench". -/
theorem c3_witness :
    strip "Bench" ≠ ""
    ∧ (((exercisesOf (add_exercise inProgressFullStore 1 "Bench" 7) 1).map
          (fun e => e.order_num)
        = (exercisesOf inProgressFullStore 1).map (fun e => e.order_num)
          ++ [listMax ((exercisesOf inProgressFullStore 1).map (fun e => e.order_num)) + 1])
      ∧ (∀ k, (∃ e ∈ exercisesOf inProgressFullStore 1, k ≤ e.order_num) →
          listMax ((exercisesOf inProgressFullStore 1).map (fun e => e.order_num)) + 1 ≠ k)
      ∧ ∀ (eid : Nat) (r : Int) (wt : Rat),
          ((setsOfExercise (add_set inProgressFullStore 1 eid r wt 7) eid).map
              (fun t => t.set_number)
            = (setsOfExercise inProgressFullStore eid).map (fun t => t.set_number)
              ++ [listMax ((setsOfExercise inProgressFullStore eid).map
                    (fun t => t.set_number)) + 1])
          ∧ ∀ k, (∃ t ∈ setsOfExercise inProgressFullStore eid, k ≤ t.set_number) →
              listMax ((setsOfExercise inProgressFullStore eid).map
                  (fun t => t.set_number)) + 1 ≠ k) :=
  ⟨by decide, c3_next_number_is_max_plus_one inProgressFullStore 1 "Bench" 7 (by decide)⟩

/-- C6: `finish_workout` is unconditional — after two calls the workout's status
is still "completed" (idempotent on status) while notes and completed_at hold the
second call's values; nothing guards an already-completed workout. -/
theorem c6_finish_twice (s : Store) (wid : Nat) (n1 n2 : String) (t1 t2 : Nat) :
    (∀ w' ∈ (finish_workout s wid n1 t1).workouts, w'.id = wid → w'.status = "completed")
    ∧ ∀ w' ∈ (finish_workout (finish_workout s wid n1 t1) wid n2 t2).workouts,
        w'.id = wid →
          w'.status = "completed" ∧ w'.notes = some n2 ∧ w'.completed_at = some t2 := by
  constructor
  · intro w' hw' hid
    obtain ⟨w, hw, rfl⟩ := List.mem_map.mp hw'
    by_cases h : w.id == wid
    · simp [h]
    · simp [h] at hid ⊢
      exact absurd hid (by simpa using h)
  · intro w' hw' hid
    obtain ⟨w1, hw1, rfl⟩ := List.mem_map.mp hw'
    obtain ⟨w, hw, rfl⟩ := List.mem_map.mp hw1
    by_cases h : w.id == wid
    · simp [h]
    · simp [h] at hid ⊢
      exact absurd hid (by simpa using h)

/-- C6 witness: finishing the concrete strength workout twice (notes "a" then "b",
times 3 then 9) yields status "completed", notes "b", completed_at 9. -/
theorem c6_witness :
    (⟨1, "strength", "completed", "2024-01-01", some "b", none, none, none, 0,
        some 9⟩ : Workout).status = "completed"
    ∧ (⟨1, "strength", "completed", "2024-01-01", some "b", none, none, none, 0,
        some 9⟩ : Workout).notes = some "b"
    ∧ (⟨1, "strength", "completed", "2024-01-01", some "b", none, none, none, 0,
        some 9⟩ : Workout).completed_at = some 9 :=
  (c6_finish_twice strengthStore 1 "a" "b" 3 9).2
    ⟨1, "strength", "completed", "2024-01-01", some "b", none, none, none, 0, some 9⟩
    (by decide) (by decide)

/-- C7: `add_exercise` and `add_template_exercise` are no-ops when the stripped
name is empty, and insert exactly one row otherwise. -/
theorem c7_empty_name_rejection (s : Store) (wid tid : Nat) (raw : String) (now : Nat)
    (ts tr : Int) (tw : Rat) :
    (strip raw = "" →
        add_exercise s wid raw now = s ∧ add_template_exercise s tid raw ts tr tw = s)
    ∧ (strip raw ≠ "" →
        (add_exercise s wid raw now).exercises.length = s.exercises.length + 1
        ∧ (add_template_exercise s tid raw ts tr tw).template_exercises.length
            = s.template_exercises.length + 1) := by
  constructor
  · intro h
    exact ⟨by simp [add_exercise, h], by simp [add_template_exercise, h]⟩
  · intro h
    exact ⟨by simp [add_exercise, h], by simp [add_template_exercise, h]⟩

/-- C7 witness: a whitespace-only name is rejected with no state change, and
"Bench" inserts exactly one exercise row. -/
theorem c7_witness :
    (strip " " = "" ∧ add_exercise strengthStore 1 " " 0 = strengthStore)
    ∧ (strip "Bench" ≠ ""
        ∧ (add_exercise strengthStore 1 "Bench" 0).exercises.length
            = strengthStore.exercises.length + 1) := by
  refine ⟨⟨by decide, ?_⟩, by decide, ?_⟩
  · exact ((c7_empty_name_rejection strengthStore 1 1 " " 0 3 10 0).1 (by decide)).1
  · exact ((c7_empty_name_rejection strengthStore 1 1 "Bench" 0 3 10 0).2 (by decide)).1

/-- C9: `delete_set` removes exactly the set rows whose id equals the `set_id`
path parameter — it neither reads nor depends on the workout/exercise path
parameters and touches no other table; `delete_template_exercise` likewise
deletes by exercise id alone, ignoring the template id. -/
theorem c9_delete_by_id_only (s : Store) (wid eid wid' eid' sid tid tid' teid : Nat) :
    delete_set s wid eid sid = delete_set s wid' eid' sid
    ∧ (∀ t_1 : SetRow, t_1 ∈ (delete_set s wid eid sid).sets
        ↔ t_1 ∈ s.sets ∧ t_1.id ≠ sid)
    ∧ (delete_set s wid eid sid).workouts = s.workouts
    ∧ (delete_set s wid eid sid).exercises = s.exercises
    ∧ (delete_set s wid eid sid).templates = s.templates
    ∧ (delete_set s wid eid sid).template_exercises = s.template_exercises
    ∧ delete_template_exercise s tid teid = delete_template_exercise s tid' teid
    ∧ (∀ te : TemplateExercise, te ∈ (delete_template_exercise s tid teid).template_exercises
        ↔ te ∈ s.template_exercises ∧ te.id ≠ teid) := by
  refine ⟨rfl, ?_, rfl, rfl, rfl, rfl, rfl, ?_⟩
  · intro t_1
    simp [delete_set, List.mem_filter]
  · intro te
    simp [delete_template_exercise, List.mem_filter]

/-- C10: neither `add_exercise` nor `add_set` consults the owning workout's
status: on a completed workout both still insert exactly one row. -/
theorem c10_no_status_check (s : Store) (wid : Nat) (w : Workout) (e : Exercise)
    (raw : String) (now : Nat) (r : Int) (wt : Rat)
    (hw : w ∈ s.workouts) (hid : w.id = wid) (hst : w.status = "completed")
    (hname : strip raw ≠ "") (he : e ∈ s.exercises) (hew : e.workout_id = wid) :
    (add_exercise s wid raw now).exercises.length = s.exercises.length + 1
    ∧ (add_set s wid e.id r wt now).sets.length = s.sets.length + 1 :=
  ⟨by simp [add_exercise, hname], by simp [add_set]⟩

/-- C10 witness: on the completed concrete workout, adding "Bench" and adding a
set to its "Squat" exercise each insert one row. -/
theorem c10_witness :
    strip "Bench" ≠ ""
    ∧ ((add_exercise completedFullStore 1 "Bench" 9).exercises.length
          = completedFullStore.exercises.length + 1
      ∧ (add_set completedFullStore 1 1 5 100 9).sets.length
          = completedFullStore.sets.length + 1) :=
  ⟨by decide, c10_no_status_check completedFullStore 1
      ⟨1, "strength", "completed", "2024-01-01", some "good", none, none, none, 0, some 10⟩
      ⟨1, 1, "Squat", 1, none, none, none, 0⟩ "Bench" 9 5 100
      (by decide) rfl rfl (by decide) (by decide) rfl⟩

/-- C8: every mutating operation (UpdateRun, FinishWorkout, AddExercise, AddSet
and all the deletes — everything except the two workout-creating routes) leaves
the `workout_type` of every surviving workout row as it was: each surviving row
keeps the id and workout_type of a row of the previous state. -/
theorem c8_workout_type_frame (op : Op) (s : Store) (hm : op.isMutator = true) :
    ∀ w' ∈ (op.apply s).workouts,
      ∃ w ∈ s.workouts, w.id = w'.id ∧ w.workout_type = w'.workout_type := by
  intro w' hw'
  cases op with
  | startWorkout wt d now => simp [Op.isMutator] at hm
  | startFromTemplate tid d now => simp [Op.isMutator] at hm
  | addExercise wid raw now =>
      refine ⟨w', ?_, rfl, rfl⟩
      rwa [Op.apply, add_exercise_workouts] at hw'
  | addSet wid eid r wt now => exact ⟨w', hw', rfl, rfl⟩
  | deleteSet wid eid sid => exact ⟨w', hw', rfl, rfl⟩
  | deleteExercise wid eid => exact ⟨w', hw', rfl, rfl⟩
  | updateRun wid dur dist =>
      obtain ⟨w, hw, rfl⟩ := List.mem_map.mp hw'
      by_cases h : w.id == wid <;> exact ⟨w, hw, by simp [h], by simp [h]⟩
  | finishWorkout wid n now =>
      obtain ⟨w, hw, rfl⟩ := List.mem_map.mp hw'
      by_cases h : w.id == wid <;> exact ⟨w, hw, by simp [h], by simp [h]⟩
  | cancelWorkout wid =>
      exact ⟨w', List.mem_of_mem_filter hw', rfl, rfl⟩
  | deleteWorkout wid =>
      exact ⟨w', List.mem_of_mem_filter hw', rfl, rfl⟩
  | newTemplate raw wt now =>
      refine ⟨w', ?_, rfl, rfl⟩
      rwa [Op.apply, (new_template_frame s raw wt now).1] at hw'
  | addTemplateExercise tid raw ts tr tw =>
      refine ⟨w', ?_, rfl, rfl⟩
      rwa [Op.apply, (add_template_exercise_frame s tid raw ts tr tw).1] at hw'
  | deleteTemplateExercise tid eid => exact ⟨w', hw', rfl, rfl⟩
  | deleteTemplate tid => exact ⟨w', hw', rfl, rfl⟩

/-- C8 witness: finishing the concrete in-progress strength workout keeps its
workout_type. -/
theorem c8_witness :
    Op.isMutator (.finishWorkout 1 "done" 5) = true
    ∧ ∀ w' ∈ (Op.apply (.finishWorkout 1 "done" 5) strengthStore).workouts,
        ∃ w ∈ strengthStore.workouts, w.id = w'.id ∧ w.workout_type = w'.workout_type :=
  ⟨rfl, c8_workout_type_frame (.finishWorkout 1 "done" 5) strengthStore rfl⟩

/-- The exercise rows of the workout created by `start_from_template` are exactly
the copied template exercises (sorted read-back order), given id well-formedness. -/
theorem start_from_template_exercises (s : Store) (tid : Nat) (d : String) (now : Nat)
    (t : Template) (hWF : WF s)
    (hfind : s.templates.find? (fun x => x.id == tid) = some t) :
    exercisesOf (start_from_template s tid d now) s.next_workout_id
      = copyTemplateExercises s.next_workout_id now s.next_exercise_id
          (List.insertionSort (fun a b => a.order_num ≤ b.order_num)
            (templateExercisesOf s tid)) := by
  simp only [start_from_template, hfind, exercisesOf]
  rw [List.filter_append]
  have h1 : s.exercises.filter (fun e => e.workout_id == s.next_workout_id) = [] :=
    (filterW_nil_iff _ _).mpr (fun e he => Nat.ne_of_lt (hWF.exercise_wids e he))
  have h2 := List.filter_eq_self.mpr
    (fun e (he : e ∈ copyTemplateExercises s.next_workout_id now s.next_exercise_id
        (List.insertionSort (fun a b => a.order_num ≤ b.order_num)
          (templateExercisesOf s tid))) =>
      show (e.workout_id == s.next_workout_id) = true by simp [(copy_mem he).1])
  rw [h1, h2, List.nil_append]

/-- C4: starting from an existing template creates one workout whose
`workout_type` is the template's and whose `template_id` points at it, and whose
exercises carry exactly the template's (name, order_num, target) tuples — in
particular none for an empty template — each owning zero sets. -/
theorem c4_start_from_template (s : Store) (tid : Nat) (d : String) (now : Nat)
    (t : Template) (hWF : WF s)
    (hfind : s.templates.find? (fun x => x.id == tid) = some t) :
    (start_from_template s tid d now).workouts
      = s.workouts ++ [⟨s.next_workout_id, t.workout_type, "in_progress", d,
          none, none, none, some tid, now, none⟩]
    ∧ ((exercisesOf (start_from_template s tid d now) s.next_workout_id).map exTargets).Perm
        ((templateExercisesOf s tid).map teTargets)
    ∧ ∀ e ∈ exercisesOf (start_from_template s tid d now) s.next_workout_id,
        setsOfExercise (start_from_template s tid d now) e.id = [] := by
  refine ⟨?_, ?_, ?_⟩
  · simp [start_from_template, hfind]
  · rw [start_from_template_exercises s tid d now t hWF hfind, copy_map_targets]
    exact (List.perm_insertionSort _ _).map teTargets
  · intro e he
    rw [start_from_template_exercises s tid d now t hWF hfind] at he
    have hle : s.next_exercise_id ≤ e.id := (copy_mem he).2
    have hsets : (start_from_template s tid d now).sets = s.sets := by
      simp [start_from_template, hfind]
    simp only [setsOfExercise, hsets]
    exact List.filter_eq_nil_iff.mpr (fun t1 ht1 => by
      have := hWF.set_eids t1 ht1
      simp only [beq_iff_eq]
      omega)

/-- C4 witness: instantiating the "Push Day" template (Bench 3×8@135 order 1,
OHP 3×10@65 order 2) copies both exercises with their targets and zero sets. -/
theorem c4_witness :
    WF pushDayStore
    ∧ pushDayStore.templates.find? (fun x => x.id == 1)
        = some ⟨1, "Push Day", "strength", 0⟩
    ∧ ((start_from_template pushDayStore 1 "2024-01-02" 5).workouts
        = pushDayStore.workouts ++ [⟨pushDayStore.next_workout_id, "strength",
            "in_progress", "2024-01-02", none, none, none, some 1, 5, none⟩]
      ∧ ((exercisesOf (start_from_template pushDayStore 1 "2024-01-02" 5)
            pushDayStore.next_workout_id).map exTargets).Perm
          ((templateExercisesOf pushDayStore 1).map teTargets)
      ∧ ∀ e ∈ exercisesOf (start_from_template pushDayStore 1 "2024-01-02" 5)
            pushDayStore.next_workout_id,
          setsOfExercise (start_from_template pushDayStore 1 "2024-01-02" 5) e.id = []) :=
  ⟨⟨by decide, by decide, by decide, by decide⟩, by decide,
    c4_start_from_template pushDayStore 1 "2024-01-02" 5 ⟨1, "Push Day", "strength", 0⟩
      ⟨by decide, by decide, by decide, by decide⟩ (by decide)⟩

/-- C5 counterexample: nothing stops `add_exercise` on a run workout, nor
`update_run` on a strength workout — both reachable states violate the claimed
type separation. -/
theorem c5_counterexample :
    (∃ w ∈ (add_exercise runMixStore 1 "Bench" 3).workouts, w.workout_type = "run"
      ∧ exercisesOf (add_exercise runMixStore 1 "Bench" 3) w.id ≠ [])
    ∧ ∃ w ∈ (update_run runMixStore 2 (some 30) (some 5)).workouts,
        w.workout_type ≠ "run" ∧ w.duration_minutes ≠ none := by decide

/-- Membership in the exercises table after a successful `add_exercise`. -/
theorem mem_add_exercise_exercises {s : Store} {wid : Nat} {raw : String} {now : Nat}
    {e : Exercise} (hn : ¬ strip raw = "")
    (he : e ∈ (add_exercise s wid raw now).exercises) :
    e ∈ s.exercises ∨ e.workout_id = wid := by
  simp only [add_exercise, if_neg hn] at he
  rcases List.mem_append.mp he with h | h
  · exact Or.inl h
  · right
    rw [List.mem_singleton] at h
    subst h
    rfl

/-- C5 (amended): the type-separation invariant holds at creation and is
preserved by every operation, provided callers respect the discipline the code
does not enforce: exercises only on non-run workouts, run data only on run
workouts, no template exercises on run templates. -/
theorem c5_type_invariant_preserved (op : Op) (s : Store) (hWF : WF s)
    (hInv : TypeInvariant s) (hResp : op.respectsTypes s) :
    TypeInvariant (op.apply s) := by
  cases op with
  | startWorkout wt d now =>
      refine typeInvariant_of ?_ ?_
      · intro w hw hr
        have hw2 : w ∈ s.workouts
            ∨ w = ⟨s.next_workout_id, wt, "in_progress", d, none, none, none, none,
                now, none⟩ := by
          simpa [Op.apply, start_workout] using hw
        show s.exercises.filter (fun e => e.workout_id == w.id) = []
        rcases hw2 with hww | rfl
        · exact tiRunEx hInv hww hr
        · exact (filterW_nil_iff _ _).mpr (fun e he => Nat.ne_of_lt (hWF.exercise_wids e he))
      · intro w hw hn
        have hw2 : w ∈ s.workouts
            ∨ w = ⟨s.next_workout_id, wt, "in_progress", d, none, none, none, none,
                now, none⟩ := by
          simpa [Op.apply, start_workout] using hw
        rcases hw2 with hww | rfl
        · exact tiNonRun hInv hww hn
        · exact ⟨rfl, rfl⟩
  | startFromTemplate tid d now =>
      cases hfind : s.templates.find? (fun x => x.id == tid) with
      | none =>
          have hid : Op.apply (.startFromTemplate tid d now) s = s := by
            simp [Op.apply, start_from_template, hfind]
          rw [hid]; exact hInv
      | some t =>
          have ht : t ∈ s.templates := List.mem_of_find?_eq_some hfind
          have htid : t.id = tid := by simpa using List.find?_some hfind
          have hex : (Op.apply (.startFromTemplate tid d now) s).exercises
              = s.exercises ++ copyTemplateExercises s.next_workout_id now s.next_exercise_id
                  (List.insertionSort (fun a b => a.order_num ≤ b.order_num)
                    (templateExercisesOf s tid)) := by
            simp [Op.apply, start_from_template, hfind]
          refine typeInvariant_of ?_ ?_
          · intro w hw hr
            have hw2 : w ∈ s.workouts
                ∨ w = ⟨s.next_workout_id, t.workout_type, "in_progress", d, none, none,
                    none, some tid, now, none⟩ := by
              simpa [Op.apply, start_from_template, hfind] using hw
            show (Op.apply (.startFromTemplate tid d now) s).exercises.filter
                (fun e => e.workout_id == w.id) = []
            rcases hw2 with hww | rfl
            · rw [hex, List.filter_append]
              have h1 : s.exercises.filter (fun e => e.workout_id == w.id) = [] :=
                tiRunEx hInv hww hr
              have h2 : (copyTemplateExercises s.next_workout_id now s.next_exercise_id
                  (List.insertionSort (fun a b => a.order_num ≤ b.order_num)
                    (templateExercisesOf s tid))).filter
                  (fun e => e.workout_id == w.id) = [] :=
                (filterW_nil_iff _ _).mpr (fun e he => by
                  have h3 := (copy_mem he).1
                  have h4 := hWF.workout_ids w hww
                  omega)
              rw [h1, h2]
              rfl
            · have h0 : templateExercisesOf s tid = [] := hResp t ht htid hr
              rw [hex, h0]
              simp only [List.insertionSort, copyTemplateExercises, List.append_nil]
              exact (filterW_nil_iff _ _).mpr
                (fun e he => Nat.ne_of_lt (hWF.exercise_wids e he))
          · intro w hw hn
            have hw2 : w ∈ s.workouts
                ∨ w = ⟨s.next_workout_id, t.workout_type, "in_progress", d, none, none,
                    none, some tid, now, none⟩ := by
              simpa [Op.apply, start_from_template, hfind] using hw
            rcases hw2 with hww | rfl
            · exact tiNonRun hInv hww hn
            · exact ⟨rfl, rfl⟩
  | addExercise wid raw now =>
      by_cases hn : strip raw = ""
      · have hid : Op.apply (.addExercise wid raw now) s = s := by
          simp [Op.apply, add_exercise, hn]
        rw [hid]; exact hInv
      · refine typeInvariant_of ?_ ?_
        · intro w hw hr
          have hww : w ∈ s.workouts := by
            rwa [Op.apply, add_exercise_workouts] at hw
          have hwid : w.id ≠ wid := fun heq => hResp w hww heq hr
          have h0 := tiRunEx hInv hww hr
          show (Op.apply (.addExercise wid raw now) s).exercises.filter
              (fun e => e.workout_id == w.id) = []
          refine (filterW_nil_iff _ _).mpr (fun e he => ?_)
          rcases mem_add_exercise_exercises hn he with h3 | h3
          · exact (filterW_nil_iff _ _).mp h0 e h3
          · rw [h3]; exact fun h4 => hwid h4.symm
        · intro w hw hn2
          have hww : w ∈ s.workouts := by
            rwa [Op.apply, add_exercise_workouts] at hw
          exact tiNonRun hInv hww hn2
  | addSet wid eid r wt now =>
      refine typeInvariant_sub ?_ ?_ hInv
      · exact fun w h => h
      · exact fun e h => h
  | deleteSet wid eid sid =>
      refine typeInvariant_sub ?_ ?_ hInv
      · exact fun w h => h
      · exact fun e h => h
  | deleteExercise wid eid =>
      refine typeInvariant_sub ?_ ?_ hInv
      · exact fun w h => h
      · exact fun e h => List.mem_of_mem_filter h
  | updateRun wid dur dist =>
      refine typeInvariant_of ?_ ?_
      · intro w' hw' hr
        simp only [Op.apply, update_run] at hw'
        obtain ⟨w, hw, rfl⟩ := List.mem_map.mp hw'
        by_cases h : w.id == wid
        · have hrun : w.workout_type = "run" := by simpa [h] using hr
          simpa [Op.apply, update_run, exercisesOf, h] using tiRunEx hInv hw hrun
        · have hrun : w.workout_type = "run" := by simpa [h] using hr
          simpa [Op.apply, update_run, exercisesOf, h] using tiRunEx hInv hw hrun
      · intro w' hw' hnr
        simp only [Op.apply, update_run] at hw'
        obtain ⟨w, hw, rfl⟩ := List.mem_map.mp hw'
        by_cases h : w.id == wid
        · have hwid : w.id = wid := by simpa using h
          have hrun := hResp w hw hwid
          simp [h] at hnr
          exact absurd hrun hnr
        · simp only [h] at hnr ⊢
          simp at hnr ⊢
          exact tiNonRun hInv hw hnr
  | finishWorkout wid n now =>
      refine typeInvariant_of ?_ ?_
      · intro w' hw' hr
        simp only [Op.apply, finish_workout] at hw'
        obtain ⟨w, hw, rfl⟩ := List.mem_map.mp hw'
        by_cases h : w.id == wid
        · have hrun : w.workout_type = "run" := by simpa [h] using hr
          simpa [Op.apply, finish_workout, exercisesOf, h] using tiRunEx hInv hw hrun
        · have hrun : w.workout_type = "run" := by simpa [h] using hr
          simpa [Op.apply, finish_workout, exercisesOf, h] using tiRunEx hInv hw hrun
      · intro w' hw' hnr
        simp only [Op.apply, finish_workout] at hw'
        obtain ⟨w, hw, rfl⟩ := List.mem_map.mp hw'
        by_cases h : w.id == wid
        · have hnr2 : w.workout_type ≠ "run" := by simpa [h] using hnr
          have h0 := tiNonRun hInv hw hnr2
          simp [h, h0.1, h0.2]
        · have hnr2 : w.workout_type ≠ "run" := by simpa [h] using hnr
          have h0 := tiNonRun hInv hw hnr2
          simp [h, h0.1, h0.2]
  | cancelWorkout wid =>
      refine typeInvariant_sub ?_ ?_ hInv
      · exact fun w h => List.mem_of_mem_filter h
      · exact fun e h => List.mem_of_mem_filter h
  | deleteWorkout wid =>
      refine typeInvariant_sub ?_ ?_ hInv
      · exact fun w h => List.mem_of_mem_filter h
      · exact fun e h => List.mem_of_mem_filter h
  | newTemplate raw wt now =>
      refine typeInvariant_sub ?_ ?_ hInv
      · intro w h; rwa [Op.apply, (new_template_frame s raw wt now).1] at h
      · intro e h; rwa [Op.apply, (new_template_frame s raw wt now).2] at h
  | addTemplateExercise tid raw ts tr tw =>
      refine typeInvariant_sub ?_ ?_ hInv
      · intro w h; rwa [Op.apply, (add_template_exercise_frame s tid raw ts tr tw).1] at h
      · intro e h; rwa [Op.apply, (add_template_exercise_frame s tid raw ts tr tw).2] at h
  | deleteTemplateExercise tid eid =>
      refine typeInvariant_sub ?_ ?_ hInv
      · exact fun w h => h
      · exact fun e h => h
  | deleteTemplate tid =>
      refine typeInvariant_sub ?_ ?_ hInv
      · exact fun w h => h
      · exact fun e h => h

/-- C5 witness: on the run+strength store the discipline-respecting operation
`addExercise` on the strength workout keeps the type invariant. -/
theorem c5_witness :
    WF runMixStore ∧ TypeInvariant runMixStore
    ∧ (Op.addExercise 2 "Bench" 3).respectsTypes runMixStore
    ∧ TypeInvariant ((Op.addExercise 2 "Bench" 3).apply runMixStore) := by
  have hwf : WF runMixStore := ⟨by decide, by decide, by decide, by decide⟩
  have hinv : TypeInvariant runMixStore := by unfold TypeInvariant; decide
  have hresp : (Op.addExercise 2 "Bench" 3).respectsTypes runMixStore := by
    unfold Op.respectsTypes; decide
  exact ⟨hwf, hinv, hresp, c5_type_invariant_preserved _ _ hwf hinv hresp⟩

end Fitness
